import Mathlib

/-!
Verification development for the tweets-of-the-highest-caliber bot.

The embedding models the subscription store (`models.py`), the subscription
manager operations (`managers.py`), the timeline client data (`clients/twitter.py`)
and the polling / command-parsing logic of the bot (`bots.py`).

Conventions of the embedding:
* SQLite rows of the `twitter_subscriptions` table become `Subscription`
  structures; the table becomes a `List Subscription` (in row order).
* Timestamps (`datetime.utcnow()`) are abstracted as `Nat` values passed in
  explicitly as `now` arguments.
* Tweet ids are `Nat` (Python ints, non-negative in the API).
* Python truthiness of an `Optional[int]` (`if since_id:`) is `truthyOptNat`:
  `None` and `0` are falsy.
* Fallible operations return `Except`.
-/

namespace Tothc

/-- ASCII word character, the `\w` / `[a-zA-Z0-9_]` class of the regexes in
`bots.py` (all inputs of interest are ASCII). -/
def isWordChar (c : Char) : Bool := c.isAlphanum || c == '_'

/-- Matcher for the common tail `(?P<username>[a-zA-Z0-9_]{1,15})\b` that ends
every pattern of `SUBSCRIBE_PATTERNS` and `UNSUBSCRIBE_PATTERNS` in `bots.py`
(nothing follows the `\b` in any of them).  `budget` is how many more word
characters the greedy `{1,15}` repetition may consume, `consumed` the
characters captured so far in reverse.  Greedy with backtracking, exactly like
the Python regex engine: consume as many word characters as possible, then
back off until the word boundary holds.  The boundary after at least one word
character holds iff the next character is absent or not a word character. -/
def groupTail (budget : Nat) (consumed : List Char) (s : List Char) : Option (List Char) :=
  let boundaryOk : Bool :=
    match s with
    | [] => true
    | c :: _ => !(isWordChar c)
  let tryHere : Option (List Char) :=
    if consumed.isEmpty then none
    else if boundaryOk then some consumed.reverse else none
  match budget, s with
  | Nat.succ b, c :: rest =>
    if isWordChar c then
      match groupTail b (c :: consumed) rest with
      | some u => some u
      | none => tryHere
    else tryHere
  | _, _ => tryHere

/-- A token of the fixed prefix of one of the command regexes of `bots.py`:
a literal character or the greedy `.*` (which does not match a newline). -/
inductive PTok where
  | lit (c : Char)
  | dotStar
deriving DecidableEq

/-- Backtracking matcher for a regex prefix (`PTok` list) followed by the
common `(?P<username>[a-zA-Z0-9_]{1,15})\b` tail, anchored at the start of the
input like Python's `pattern.match`.  `fuel` makes the recursion structural so
the kernel can evaluate it; every recursive call shrinks
`patternLength + inputLength` by at least one, so any fuel above that sum
behaves like the unfueled matcher (see `runPat`). -/
def runPatFuel : Nat → List PTok → List Char → Option (List Char)
  | 0, _, _ => none
  | Nat.succ _, [], s => groupTail 15 [] s
  | Nat.succ f, PTok.lit c :: ps, s =>
    match s with
    | [] => none
    | c2 :: rest => if c2 == c then runPatFuel f ps rest else none
  | Nat.succ f, PTok.dotStar :: ps, s =>
    match s with
    | [] => runPatFuel f ps []
    | c :: rest =>
      if c == '\n' then runPatFuel f ps (c :: rest)
      else
        match runPatFuel f (PTok.dotStar :: ps) rest with
        | some u => some u
        | none => runPatFuel f ps (c :: rest)

/-- Match one command regex (given by its prefix before the username group)
against the whole input, returning the captured username on success. -/
def runPat (ps : List PTok) (s : List Char) : Option (List Char) :=
  runPatFuel (ps.length + s.length + 1) ps s

/-- Literal characters of a string as pattern tokens. -/
def lits (s : String) : List PTok := s.toList.map PTok.lit

/-- `SUBSCRIBE_PATTERNS` of `bots.py`, each as the prefix before
`(?P<username>[a-zA-Z0-9_]{1,15})\b`:
`subscribe (?P<username>...)\b` and `subscribe .*twitter\.com/(?P<username>...)\b`. -/
def subscribePatternPrefixes : List (List PTok) :=
  [lits "subscribe ",
   lits "subscribe " ++ [PTok.dotStar] ++ lits "twitter.com/"]

/-- `UNSUBSCRIBE_PATTERNS` of `bots.py`. -/
def unsubscribePatternPrefixes : List (List PTok) :=
  [lits "unsubscribe ",
   lits "unsubscribe " ++ [PTok.dotStar] ++ lits "twitter.com/"]

/-- Try the patterns in order; the first match wins, as in the `for pattern in
SUBSCRIBE_PATTERNS` loops of `TOTHCBot._handle_slack_message`. -/
def firstPatternMatch : List (List PTok) → List Char → Option (List Char)
  | [], _ => none
  | p :: rest, s =>
    match runPat p s with
    | some u => some u
    | none => firstPatternMatch rest s

/-- The command intent extracted from a Slack message's text. -/
inductive Intent where
  | subscribeIntent (username : String)
  | unsubscribeIntent (username : String)
deriving DecidableEq

/-- The parsing part of `TOTHCBot._handle_slack_message` (`bots.py` lines
196-226): subscribe patterns are tried first, then unsubscribe patterns;
within each list the first matching pattern determines the username. -/
def parseMessageText (text : String) : Option Intent :=
  match firstPatternMatch subscribePatternPrefixes text.toList with
  | some u => some (Intent.subscribeIntent ⟨u⟩)
  | none =>
    match firstPatternMatch unsubscribePatternPrefixes text.toList with
    | some u => some (Intent.unsubscribeIntent ⟨u⟩)
    | none => none

/-- Decidable equality for `Except`, so results of fallible operations can be
compared on concrete inputs. -/
instance {ε α : Type} [DecidableEq ε] [DecidableEq α] : DecidableEq (Except ε α)
  | Except.ok a, Except.ok b =>
    match decEq a b with
    | isTrue h => isTrue (h ▸ rfl)
    | isFalse h => isFalse (fun hc => h (Except.ok.inj hc))
  | Except.ok _, Except.error _ => isFalse (fun hc => Except.noConfusion hc)
  | Except.error _, Except.ok _ => isFalse (fun hc => Except.noConfusion hc)
  | Except.error e1, Except.error e2 =>
    match decEq e1 e2 with
    | isTrue h => isTrue (h ▸ rfl)
    | isFalse h => isFalse (fun hc => h (Except.error.inj hc))

/-- SQL `LIKE` / `ILIKE` matching as used by
`models.twitter_subscriptions.c.screen_name.ilike(screen_name)` in
`managers.py`: case-insensitive, with `%` matching any sequence and `_`
matching any single character.  `fuel` makes the recursion structural for
kernel evaluation; every call shrinks `patternLength + stringLength`, so any
fuel above that sum behaves like the unfueled matcher (see `likeMatches`). -/
def likeMatchesFuel : Nat → List Char → List Char → Bool
  | 0, _, _ => false
  | Nat.succ _, [], s => s.isEmpty
  | Nat.succ f, p :: ps, s =>
    if p == '%' then
      likeMatchesFuel f ps s ||
        (match s with
         | [] => false
         | _ :: cs => likeMatchesFuel f (p :: ps) cs)
    else
      match s with
      | [] => false
      | c :: cs =>
        if p == '_' then likeMatchesFuel f ps cs
        else (p.toLower == c.toLower) && likeMatchesFuel f ps cs

/-- SQL `LIKE` matching of a pattern against a string, case-insensitively. -/
def likeMatches (p s : List Char) : Bool :=
  likeMatchesFuel (p.length + s.length + 1) p s

/-- `column.ilike(pattern)` on strings. -/
def ilike (pattern s : String) : Bool := likeMatches pattern.toList s.toList

/-- One row of the `twitter_subscriptions` table (`models.py`). -/
structure Subscription where
  user_id : Nat
  screen_name : String
  subscribed_at : Nat
  unsubscribed_at : Option Nat
  latest_tweet_id : Option Nat
  refreshed_latest_tweet_id_at : Option Nat
deriving DecidableEq

/-- `connection.fetch_one(select().where(user_id == uid))`: the first row of
the table whose `user_id` matches. -/
def findSubscription (db : List Subscription) (uid : Nat) : Option Subscription :=
  db.find? (fun r => r.user_id == uid)

/-- `TwitterSubscriptionManager.subscribe` (`managers.py` lines 13-54):
if a row for the user exists and is inactive, reactivate it (update
`screen_name`, `subscribed_at`, clear `unsubscribed_at`); if it exists and is
active, do nothing; otherwise insert a fresh active row. -/
def subscribe (db : List Subscription) (uid : Nat) (name : String) (now : Nat) :
    List Subscription :=
  match findSubscription db uid with
  | some existing =>
    if existing.unsubscribed_at.isSome then
      db.map (fun r =>
        if r.user_id == uid then
          { r with screen_name := name, subscribed_at := now, unsubscribed_at := none }
        else r)
    else db
  | none =>
    db ++ [{ user_id := uid, screen_name := name, subscribed_at := now,
             unsubscribed_at := none, latest_tweet_id := none,
             refreshed_latest_tweet_id_at := none }]

/-- The row update applied by `TwitterSubscriptionManager.unsubscribe`. -/
def clearOnUnsubscribe (now : Nat) (r : Subscription) : Subscription :=
  { r with unsubscribed_at := some now, latest_tweet_id := none,
           refreshed_latest_tweet_id_at := none }

/-- `TwitterSubscriptionManager.unsubscribe` (`managers.py` lines 56-77):
`UPDATE ... WHERE screen_name ILIKE :name` with no condition on
`unsubscribed_at`, setting `unsubscribed_at = now` and clearing
`latest_tweet_id` and `refreshed_latest_tweet_id_at` on every matching row. -/
def unsubscribe (db : List Subscription) (name : String) (now : Nat) :
    List Subscription :=
  db.map (fun r => if ilike name r.screen_name then clearOnUnsubscribe now r else r)

/-- Errors a manager call can fail with.  The implementation only ever
produces `noneNotSubscriptable` (the Python `TypeError` from subscripting the
`None` that `fetch_one` returns when no row exists); `notFound` is the typed
error the spec expects and is present only so that the spec's claim is
statable. -/
inductive ManagerError where
  | noneNotSubscriptable
  | notFound
deriving DecidableEq

/-- `TwitterSubscriptionManager.get_latest_tweet_id_for_user_id`
(`managers.py` lines 96-109): returns `subscription[latest_tweet_id]`; when no
row exists, `fetch_one` returns `None` and the subscription access raises a
`TypeError` (`noneNotSubscriptable`). -/
def get_latest_tweet_id_for_user_id (db : List Subscription) (uid : Nat) :
    Except ManagerError (Option Nat) :=
  match findSubscription db uid with
  | some r => Except.ok r.latest_tweet_id
  | none => Except.error ManagerError.noneNotSubscriptable

/-- `TwitterSubscriptionManager.update_latest_tweet_id` (`managers.py` lines
111-128): sets `refreshed_latest_tweet_id_at = now` and
`latest_tweet_id = latest` on every row whose `user_id` matches.  `latest` is
an `Option Nat` because `_handle_polling_twitter_user_id` passes `None` on a
first poll that fetched nothing. -/
def update_latest_tweet_id (db : List Subscription) (uid : Nat)
    (latest : Option Nat) (now : Nat) : List Subscription :=
  db.map (fun r =>
    if r.user_id == uid then
      { r with refreshed_latest_tweet_id_at := some now, latest_tweet_id := latest }
    else r)

/-- The `retweeted_status` payload of a tweet, reduced to the fields
`Tweet.url_of_content` reads (`clients/twitter.py`). -/
structure RetweetedStatus where
  rt_screen_name : String
  rt_id : Nat
deriving DecidableEq

/-- A tweet (`clients/twitter.py`, class `Tweet`), reduced to the fields the
bot reads: `data['id']`, `data['user']['screen_name']`, whether
`data['entities']['media']` is non-empty, and `data['retweeted_status']`. -/
structure Tweet where
  id : Nat
  user_screen_name : String
  entities_media : Bool
  retweeted_status : Option RetweetedStatus
deriving DecidableEq

/-- `Tweet.has_media`: `bool(data.get('entities', {}).get('media'))`. -/
def Tweet.has_media (t : Tweet) : Bool := t.entities_media

/-- `Tweet.is_retweet`: `bool(data.get('retweeted_status'))`. -/
def Tweet.is_retweet (t : Tweet) : Bool := t.retweeted_status.isSome

/-- `Tweet.url_of_content`: the URL of the tweet itself, or of the tweet it is
a retweet of. -/
def Tweet.url_of_content (t : Tweet) : String :=
  match t.retweeted_status with
  | some rt =>
    let sn := rt.rt_screen_name
    let i := rt.rt_id
    s!"https://www.twitter.com/{sn}/status/{i}"
  | none =>
    let sn := t.user_screen_name
    let i := t.id
    s!"https://www.twitter.com/{sn}/status/{i}"

/-- A fetched timeline (`clients/twitter.py`, class `Timeline`). -/
structure Timeline where
  tweets : List Tweet
deriving DecidableEq

/-- The Slack message text built for one tweet in
`TOTHCBot._handle_polling_twitter_user_id` (`bots.py` lines 140-150). -/
def notificationText (t : Tweet) : String :=
  let sn := t.user_screen_name
  let url := t.url_of_content
  if t.is_retweet then s!"<https://www.twitter.com/{sn}|{sn}> retweeted <{url}>"
  else s!"<https://www.twitter.com/{sn}|{sn}> tweeted <{url}>"

/-- Python truthiness of an `Optional[int]`: `None` and `0` are falsy.  This
is the test `if since_id:` performs in `bots.py` line 120. -/
def truthyOptNat : Option Nat → Bool
  | none => false
  | some n => n != 0

/-- A failure of the timeline fetch (timeout, suspended account, transient
API error raised by `Client.get_user_timeline_by_user_id`). -/
inductive FetchError where
  | apiFailure
deriving DecidableEq

/-- `bots.py` lines 120-124: on a first fetch (`since_id` falsy) nothing is
treated as new, otherwise every fetched tweet is. -/
def pollNewTweets (since_id : Option Nat) (timeline : Timeline) : List Tweet :=
  if truthyOptNat since_id then timeline.tweets else []

/-- `bots.py` lines 126-128: the cursor to store is the id of the first tweet
of the (newest-first) timeline, or the unchanged `since_id` when the fetch
returned nothing. -/
def pollSinceId (since_id : Option Nat) (timeline : Timeline) : Option Nat :=
  match timeline.tweets with
  | [] => since_id
  | t :: _ => some t.id

/-- `bots.py` lines 139-155: one Slack message per new tweet that has media,
in timeline order. -/
def pollNotifications (since_id : Option Nat) (timeline : Timeline) : List String :=
  ((pollNewTweets since_id timeline).filter (fun t => t.has_media)).map notificationText

/-- The part of `TOTHCBot._handle_polling_twitter_user_id` (`bots.py` lines
110-155) after the stored cursor `since_id` was read, as a function of the
fetch's outcome `res`: on success, store the new cursor and return the
notification texts posted; a failed fetch aborts the task before the cursor
update, leaving the table unchanged and posting nothing (the exception is
only captured inside the `asyncio` task). -/
def handlePollFetched (since_id : Option Nat) (res : Except FetchError Timeline)
    (uid now : Nat) (db : List Subscription) : List Subscription × List String :=
  match res with
  | Except.error _ => (db, [])
  | Except.ok timeline =>
    (update_latest_tweet_id db uid (pollSinceId since_id timeline) now,
     pollNotifications since_id timeline)

/-- The whole of `_handle_polling_twitter_user_id`: read the stored cursor,
then process the fetch's outcome with `handlePollFetched`. -/
def handlePoll (fetch : Nat → Option Nat → Except FetchError Timeline)
    (uid now : Nat) (db : List Subscription) : List Subscription × List String :=
  match get_latest_tweet_id_for_user_id db uid with
  | Except.error _ => (db, [])
  | Except.ok since_id => handlePollFetched since_id (fetch uid since_id) uid now db

/-- A failure of a whole polling cycle. `emptyTaskSetValueError` is the
`ValueError` that `asyncio.wait` raises when handed an empty set of tasks
(Python standard library behaviour). -/
inductive CycleError where
  | emptyTaskSetValueError
deriving DecidableEq

/-- Modelled from the spec: `TwitterSubscriptionManager.list_user_ids_of_active_subscriptions`
is called by `TOTHCBot._twitter_loop` but is absent from the repository's
source; spec section 4.1 specifies it as the snapshot of the `user_id` of all
rows where `unsubscribed_at IS NULL`. -/
def list_user_ids_of_active_subscriptions (db : List Subscription) : List Nat :=
  (db.filter (fun r => r.unsubscribed_at.isNone)).map (fun r => r.user_id)

/-- The fan-out/fan-in of one cycle: each listed account's polling task runs
(`asyncio.wait` waits for all of them, and a failure inside one task is
captured in that task without affecting the others); tasks touch only their
own row, so running them in sequence is a faithful linearization. -/
def runCycleTasks (fetch : Nat → Option Nat → Except FetchError Timeline) (now : Nat) :
    List Nat → List Subscription × List String → List Subscription × List String
  | [], acc => acc
  | uid :: rest, acc =>
    let res := handlePoll fetch uid now acc.1
    runCycleTasks fetch now rest (res.1, acc.2 ++ res.2)

/-- One iteration of `TOTHCBot._twitter_loop` (`bots.py` lines 157-174) up to
the sleep: list the active subscriptions, spawn one polling task per user id
and join them with `asyncio.wait`, which raises `ValueError` when the set of
tasks is empty. -/
def twitterCycle (fetch : Nat → Option Nat → Except FetchError Timeline) (now : Nat)
    (db : List Subscription) : Except CycleError (List Subscription × List String) :=
  let uids := list_user_ids_of_active_subscriptions db
  if uids.isEmpty then Except.error CycleError.emptyTaskSetValueError
  else Except.ok (runCycleTasks fetch now uids (db, []))

/-- Concatenation of per-account notification lists, used to state how a
cycle's notifications decompose per account. -/
def concatMap (f : Nat → List String) : List Nat → List String
  | [] => []
  | v :: rest => f v ++ concatMap f rest

/-- The maximum tweet id occurring in a list of tweets (0 when empty). -/
def maxTweetId (l : List Tweet) : Nat := l.foldl (fun m t => max m t.id) 0

/-! ### Concrete rows, tweets and fetch behaviours used as test inputs -/

/-- An active row with a nonzero cursor. -/
def rowActive : Subscription :=
  { user_id := 1, screen_name := "alice", subscribed_at := 0, unsubscribed_at := none,
    latest_tweet_id := some 5, refreshed_latest_tweet_id_at := some 2 }

/-- An active row whose stored cursor is `0` (non-null but Python-falsy). -/
def rowZeroCursor : Subscription :=
  { user_id := 1, screen_name := "alice", subscribed_at := 0, unsubscribed_at := none,
    latest_tweet_id := some 0, refreshed_latest_tweet_id_at := some 0 }

/-- An active row that has never been polled (`latest_tweet_id` is NULL). -/
def rowNeverPolled : Subscription :=
  { user_id := 1, screen_name := "alice", subscribed_at := 0, unsubscribed_at := none,
    latest_tweet_id := none, refreshed_latest_tweet_id_at := none }

/-- An inactive (unsubscribed) row. -/
def rowInactive : Subscription :=
  { user_id := 3, screen_name := "carol", subscribed_at := 0, unsubscribed_at := some 1,
    latest_tweet_id := none, refreshed_latest_tweet_id_at := none }

/-- A second active row, for multi-account cycles. -/
def rowActive2 : Subscription :=
  { user_id := 2, screen_name := "bob", subscribed_at := 0, unsubscribed_at := none,
    latest_tweet_id := some 3, refreshed_latest_tweet_id_at := some 1 }

/-- A tweet with media. -/
def tweetMedia : Tweet :=
  { id := 8, user_screen_name := "alice", entities_media := true, retweeted_status := none }

/-- A tweet without media. -/
def tweetNoMedia : Tweet :=
  { id := 6, user_screen_name := "alice", entities_media := false, retweeted_status := none }

/-- A tweet with media and id 7. -/
def tweetMedia7 : Tweet :=
  { id := 7, user_screen_name := "alice", entities_media := true, retweeted_status := none }

/-- A newest-first timeline with one media and one plain tweet. -/
def timelineTwo : Timeline := { tweets := [tweetMedia, tweetNoMedia] }

/-- A fetch that always succeeds with `timelineTwo`. -/
def fetchTwo : Nat → Option Nat → Except FetchError Timeline :=
  fun _ _ => Except.ok timelineTwo

/-- A fetch that always succeeds with one media tweet. -/
def fetchOneMedia : Nat → Option Nat → Except FetchError Timeline :=
  fun _ _ => Except.ok { tweets := [tweetMedia7] }

/-- A fetch that fails for account 1 and succeeds with `timelineTwo` elsewhere. -/
def fetchFailOn1 : Nat → Option Nat → Except FetchError Timeline :=
  fun v _ => if v = 1 then Except.error FetchError.apiFailure else Except.ok timelineTwo

/-- Like `fetchFailOn1` but succeeding (with an empty timeline) on account 1. -/
def fetchOkOn1 : Nat → Option Nat → Except FetchError Timeline :=
  fun v s => if v = 1 then Except.ok { tweets := [] } else fetchFailOn1 v s

/-! ### Helper lemmas -/

/-- `find?` by `user_id` commutes with mapping a row transformation that
preserves `user_id`. -/
theorem findSub_map (f : Subscription → Subscription)
    (hf : ∀ r, (f r).user_id = r.user_id) (db : List Subscription) (v : Nat) :
    findSubscription (db.map f) v = (findSubscription db v).map f := by
  induction db with
  | nil => rfl
  | cons a rest ih =>
    unfold findSubscription at ih ⊢
    simp only [List.map_cons, List.find?_cons]
    rw [hf a]
    cases h : a.user_id == v with
    | true => rfl
    | false => exact ih

/-- Looking up the updated account after `update_latest_tweet_id`. -/
theorem findSub_update_self (db : List Subscription) (uid : Nat)
    (v : Option Nat) (now : Nat) :
    findSubscription (update_latest_tweet_id db uid v now) uid
      = (findSubscription db uid).map
          (fun r => { r with refreshed_latest_tweet_id_at := some now,
                             latest_tweet_id := v }) := by
  unfold update_latest_tweet_id
  rw [findSub_map _ (fun r => by by_cases h : (r.user_id == uid) = true <;> simp [h])]
  cases hr : findSubscription db uid with
  | none => rfl
  | some r =>
    have hr2 : List.find? (fun x => x.user_id == uid) db = some r := hr
    have hp := List.find?_some hr2
    simp only at hp
    have hrw : r.user_id = uid := beq_iff_eq.mp hp
    simp [hrw]

/-- `update_latest_tweet_id` leaves every other account's row unchanged. -/
theorem findSub_update_other (db : List Subscription) (uid : Nat)
    (v : Option Nat) (now w : Nat) (hne : w ≠ uid) :
    findSubscription (update_latest_tweet_id db uid v now) w
      = findSubscription db w := by
  unfold update_latest_tweet_id
  rw [findSub_map _ (fun r => by by_cases h : (r.user_id == uid) = true <;> simp [h])]
  cases hr : findSubscription db w with
  | none => rfl
  | some r =>
    have hr2 : List.find? (fun x => x.user_id == w) db = some r := hr
    have hp := List.find?_some hr2
    simp only at hp
    have hrw : r.user_id = w := beq_iff_eq.mp hp
    have hne2 : ¬ r.user_id = uid := by
      rw [hrw]
      exact hne
    simp [hne2]

/-- The per-fetch-outcome step leaves every other account's row unchanged. -/
theorem findSub_hpf_other (since_id : Option Nat) (res : Except FetchError Timeline)
    (uid now : Nat) (db : List Subscription) (w : Nat) (hne : w ≠ uid) :
    findSubscription (handlePollFetched since_id res uid now db).1 w
      = findSubscription db w := by
  cases res with
  | error e => rfl
  | ok tl => exact findSub_update_other db uid _ now w hne

/-- A polling task for one account leaves every other account's row
unchanged. -/
theorem findSub_handlePoll_other
    (fetch : Nat → Option Nat → Except FetchError Timeline)
    (uid now : Nat) (db : List Subscription) (w : Nat) (hne : w ≠ uid) :
    findSubscription (handlePoll fetch uid now db).1 w = findSubscription db w := by
  unfold handlePoll
  split
  · rfl
  · exact findSub_hpf_other _ _ uid now db w hne

/-- The per-fetch-outcome step's notifications and its effect on the polled
row depend only on that row. -/
theorem hpf_row_congr (since_id : Option Nat) (res : Except FetchError Timeline)
    (uid now : Nat) (dbA dbB : List Subscription)
    (h : findSubscription dbA uid = findSubscription dbB uid) :
    (handlePollFetched since_id res uid now dbA).2
        = (handlePollFetched since_id res uid now dbB).2
    ∧ findSubscription (handlePollFetched since_id res uid now dbA).1 uid
        = findSubscription (handlePollFetched since_id res uid now dbB).1 uid := by
  cases res with
  | error e => exact ⟨rfl, h⟩
  | ok tl =>
    refine ⟨rfl, ?_⟩
    show findSubscription (update_latest_tweet_id dbA uid (pollSinceId since_id tl) now) uid
        = findSubscription (update_latest_tweet_id dbB uid (pollSinceId since_id tl) now) uid
    rw [findSub_update_self, findSub_update_self, h]

/-- A polling task's notifications and its effect on its own row depend only
on that row. -/
theorem handlePoll_row_congr
    (fetch : Nat → Option Nat → Except FetchError Timeline)
    (uid now : Nat) (dbA dbB : List Subscription)
    (h : findSubscription dbA uid = findSubscription dbB uid) :
    (handlePoll fetch uid now dbA).2 = (handlePoll fetch uid now dbB).2
    ∧ findSubscription (handlePoll fetch uid now dbA).1 uid
        = findSubscription (handlePoll fetch uid now dbB).1 uid := by
  have hg : get_latest_tweet_id_for_user_id dbA uid
      = get_latest_tweet_id_for_user_id dbB uid := by
    unfold get_latest_tweet_id_for_user_id
    rw [h]
  unfold handlePoll
  rw [hg]
  cases hgv : get_latest_tweet_id_for_user_id dbB uid with
  | error e => exact ⟨rfl, h⟩
  | ok since_id =>
    show (handlePollFetched since_id (fetch uid since_id) uid now dbA).2
          = (handlePollFetched since_id (fetch uid since_id) uid now dbB).2
      ∧ findSubscription (handlePollFetched since_id (fetch uid since_id) uid now dbA).1 uid
          = findSubscription (handlePollFetched since_id (fetch uid since_id) uid now dbB).1 uid
    exact hpf_row_congr since_id _ uid now dbA dbB h

/-- A polling task for one account is insensitive to the fetch behaviour on
other accounts. -/
theorem handlePoll_fetch_congr
    (fetch fetchB : Nat → Option Nat → Except FetchError Timeline)
    (uid now : Nat) (db : List Subscription) (h : fetch uid = fetchB uid) :
    handlePoll fetch uid now db = handlePoll fetchB uid now db := by
  unfold handlePoll
  rw [h]

/-- A polling task for an account whose fetch always fails does nothing. -/
theorem handlePoll_fetch_fails
    (fetch : Nat → Option Nat → Except FetchError Timeline)
    (uid now : Nat) (db : List Subscription)
    (hfail : ∀ s, fetch uid s = Except.error FetchError.apiFailure) :
    handlePoll fetch uid now db = (db, []) := by
  unfold handlePoll
  split
  · rfl
  · rw [hfail]
    rfl

/-- `concatMap` only depends on the function's values on the list. -/
theorem concatMap_congr (f g : Nat → List String) :
    ∀ l : List Nat, (∀ v ∈ l, f v = g v) → concatMap f l = concatMap g l := by
  intro l
  induction l with
  | nil => intro _; rfl
  | cons v rest ih =>
    intro h
    unfold concatMap
    rw [h v (by simp), ih (fun w hw => h w (by simp [hw]))]

/-- Folding `max` over tweets all bounded by the accumulator returns the
accumulator. -/
theorem foldl_max_const (l : List Tweet) :
    ∀ a : Nat, (∀ u ∈ l, u.id ≤ a) → l.foldl (fun m t => max m t.id) a = a := by
  induction l with
  | nil => intro a _; rfl
  | cons t ts ih =>
    intro a h
    simp only [List.foldl]
    rw [max_eq_left (h t (List.mem_cons_self t ts))]
    exact ih a (fun u hu => h u (List.mem_cons_of_mem t hu))

/-- When the head of a timeline has the largest id (newest-first order), the
maximum id is the head's. -/
theorem maxTweetId_cons_of_head_max (t : Tweet) (ts : List Tweet)
    (h : ∀ u ∈ ts, u.id ≤ t.id) : maxTweetId (t :: ts) = t.id := by
  unfold maxTweetId
  simp only [List.foldl]
  rw [max_eq_right (Nat.zero_le t.id)]
  exact foldl_max_const ts t.id h

/-- Self-matching of the fueled `LIKE` matcher, for any sufficient fuel. -/
theorem likeMatchesFuel_self (s : List Char) :
    ∀ f : Nat, s.length + s.length < f → likeMatchesFuel f s s = true := by
  induction s with
  | nil =>
    intro f hf
    cases f with
    | zero => omega
    | succ g => simp [likeMatchesFuel]
  | cons c cs ih =>
    intro f hf
    cases f with
    | zero => simp at hf
    | succ g =>
      cases g with
      | zero =>
        simp only [List.length_cons] at hf
        omega
      | succ g2 =>
        have hx1 : likeMatchesFuel (Nat.succ g2) cs cs = true := by
          apply ih
          simp at hf
          omega
        by_cases hc : (c == '%') = true
        · have hx : likeMatchesFuel g2 cs cs = true := by
            apply ih
            simp at hf
            omega
          have inner : likeMatchesFuel (Nat.succ g2) (c :: cs) cs = true := by
            simp only [likeMatchesFuel]
            rw [if_pos hc, hx, Bool.true_or]
          simp only [likeMatchesFuel]
          rw [if_pos hc]
          show (likeMatchesFuel (Nat.succ g2) cs (c :: cs)
              || likeMatchesFuel (Nat.succ g2) (c :: cs) cs) = true
          rw [inner, Bool.or_true]
        · simp only [likeMatchesFuel]
          rw [if_neg hc]
          show (if (c == '_') = true then likeMatchesFuel (Nat.succ g2) cs cs
                else (c.toLower == c.toLower) && likeMatchesFuel (Nat.succ g2) cs cs)
              = true
          by_cases hu : (c == '_') = true
          · rw [if_pos hu, hx1]
          · rw [if_neg hu, hx1]
            simp

/-- Every string `ILIKE`-matches itself (used: a row's own screen name always
matches the unsubscribe pattern built from it). -/
theorem ilike_self (s : String) : ilike s s = true := by
  unfold ilike likeMatches
  exact likeMatchesFuel_self s.toList _ (by omega)

/-- Mapping the unsubscribe update over rows none of which match is the
identity. -/
theorem unsubscribe_no_match_map (name : String) (now : Nat) :
    ∀ db : List Subscription, (∀ r ∈ db, ilike name r.screen_name = false) →
      unsubscribe db name now = db := by
  intro db
  induction db with
  | nil => intro _; rfl
  | cons a rest ih =>
    intro h
    unfold unsubscribe at ih ⊢
    have ha := h a (List.mem_cons_self a rest)
    have hrest := ih (fun r hr => h r (List.mem_cons_of_mem a hr))
    simp only [List.map_cons, ha, Bool.false_eq_true, if_false, hrest]

/-- The first row with a given `user_id` among rows of a `Nodup`-keyed table
is any member row carrying that id. -/
theorem find_eq_of_mem_nodup (r : Subscription) (uid : Nat) (hid : r.user_id = uid) :
    ∀ db : List Subscription, r ∈ db → (db.map (fun s => s.user_id)).Nodup →
      findSubscription db uid = some r := by
  intro db
  induction db with
  | nil => intro hmem _; cases hmem
  | cons a rest ih =>
    intro hmem hnd
    simp only [List.map_cons] at hnd
    obtain ⟨hna, hnrest⟩ := List.nodup_cons.mp hnd
    unfold findSubscription
    by_cases ha : (a.user_id == uid) = true
    · rw [List.find?_cons_of_pos rest ha]
      rcases List.mem_cons.mp hmem with h1 | h2
      · rw [h1]
      · exfalso
        apply hna
        rw [beq_iff_eq.mp ha, ← hid]
        exact List.mem_map_of_mem _ h2
    · rw [List.find?_cons_of_neg rest ha]
      have hmem2 : r ∈ rest := by
        rcases List.mem_cons.mp hmem with h1 | h2
        · exact absurd (beq_iff_eq.mpr (by rw [← h1]; exact hid)) ha
        · exact h2
      exact ih hmem2 hnrest

/-- Decomposition of a cycle's fan-out: with distinct listed account ids, the
final table agrees row-wise with each account's own task run against the
initial table, and the notifications are the concatenation of each account's
own notifications (each computed from the initial table). -/
theorem runCycleTasks_spec (fetch : Nat → Option Nat → Except FetchError Timeline)
    (now : Nat) :
    ∀ (uids : List Nat) (db : List Subscription) (ns : List String), uids.Nodup →
      (runCycleTasks fetch now uids (db, ns)).2
          = ns ++ concatMap (fun v => (handlePoll fetch v now db).2) uids
      ∧ ∀ v : Nat,
          findSubscription (runCycleTasks fetch now uids (db, ns)).1 v
            = if v ∈ uids
              then findSubscription (handlePoll fetch v now db).1 v
              else findSubscription db v := by
  intro uids
  induction uids with
  | nil =>
    intro db ns _
    constructor
    · simp [runCycleTasks, concatMap]
    · intro v
      simp [runCycleTasks]
  | cons u rest ih =>
    intro db ns hnd
    obtain ⟨hu, hrest⟩ := List.nodup_cons.mp hnd
    obtain ⟨ihn, ihf⟩ :=
      ih (handlePoll fetch u now db).1 (ns ++ (handlePoll fetch u now db).2) hrest
    have hstep : runCycleTasks fetch now (u :: rest) (db, ns)
        = runCycleTasks fetch now rest
            ((handlePoll fetch u now db).1, ns ++ (handlePoll fetch u now db).2) := rfl
    have hother : ∀ v, v ≠ u →
        findSubscription (handlePoll fetch u now db).1 v = findSubscription db v :=
      fun v hv => findSub_handlePoll_other fetch u now db v hv
    constructor
    · rw [hstep, ihn]
      have hc : concatMap
            (fun v => (handlePoll fetch v now (handlePoll fetch u now db).1).2) rest
          = concatMap (fun v => (handlePoll fetch v now db).2) rest := by
        apply concatMap_congr
        intro v hv
        have hvu : v ≠ u := fun e => hu (e ▸ hv)
        exact (handlePoll_row_congr fetch v now _ db (hother v hvu)).1
      rw [hc]
      show ns ++ (handlePoll fetch u now db).2
            ++ concatMap (fun v => (handlePoll fetch v now db).2) rest
          = ns ++ ((handlePoll fetch u now db).2
            ++ concatMap (fun v => (handlePoll fetch v now db).2) rest)
      rw [List.append_assoc]
    · intro v
      rw [hstep, ihf v]
      by_cases hvrest : v ∈ rest
      · have hvu : v ≠ u := fun e => hu (e ▸ hvrest)
        rw [if_pos hvrest, if_pos (List.mem_cons_of_mem u hvrest)]
        exact (handlePoll_row_congr fetch v now _ db (hother v hvu)).2
      · rw [if_neg hvrest]
        by_cases hvu : v = u
        · subst hvu
          rw [if_pos (List.mem_cons_self v rest)]
        · have hnotin : v ∉ u :: rest := by
            intro hmem
            rcases List.mem_cons.mp hmem with h1 | h2
            · exact hvu h1
            · exact hvrest h2
          rw [if_neg hnotin]
          exact hother v hvu

/-! ### Claims -/

/-- Claim C4 (amended): calling `subscribe` for an account that already has an
active row does not raise and changes nothing at all: the row count, the
cursor, the activation state, and also the stored `display_name` are left
unchanged (the implementation only logs in this case; it does not update the
display name). -/
theorem c4_subscribe_active_noop (db : List Subscription) (uid : Nat)
    (name : String) (now : Nat) (r : Subscription)
    (hr : findSubscription db uid = some r)
    (hactive : r.unsubscribed_at = none) :
    subscribe db uid name now = db := by
  unfold subscribe
  rw [hr]
  simp [hactive]

/-- Claim C4 witness: a concrete already-active subscribe is a complete
no-op. -/
theorem c4_subscribe_active_noop_witness :
    subscribe [rowActive] 1 "bob" 9 = [rowActive] :=
  c4_subscribe_active_noop [rowActive] 1 "bob" 9 rowActive rfl rfl

/-- Claim C4 counterexample: subscribing to the already-active account 1 under
the new name "bob" leaves the stored display name "alice", refuting the
claim's "updates the stored display_name to the given name". -/
theorem c4_display_name_counterexample :
    subscribe [rowActive] 1 "bob" 9 = [rowActive]
    ∧ rowActive.screen_name ≠ "bob" := by
  refine ⟨by decide, by decide⟩

/-- Claim C5 (amended): `unsubscribe` rewrites exactly the rows whose display
name matches the given name case-insensitively under SQL LIKE semantics,
whether the row is active or not (the `WHERE` clause has no
`unsubscribed_at IS NULL` condition): matching rows get
`unsubscribed_at = now` and cleared `latest_item_id` / `cursor_refreshed_at`;
when no row at all matches, the call is a no-op and raises no error. -/
theorem c5_unsubscribe_updates_matching (db : List Subscription)
    (name : String) (now : Nat) :
    (∀ i : Nat, (unsubscribe db name now)[i]?
        = (db[i]?).map (fun r =>
            if ilike name r.screen_name then clearOnUnsubscribe now r else r))
    ∧ ((∀ r ∈ db, ilike name r.screen_name = false) →
        unsubscribe db name now = db) := by
  constructor
  · intro i
    unfold unsubscribe
    exact List.getElem?_map _ db i
  · exact unsubscribe_no_match_map name now db

/-- Claim C5 witness: on a table whose single row does not match, the call is
a no-op; the row-wise description holds at index 0. -/
theorem c5_unsubscribe_updates_matching_witness :
    (unsubscribe [rowActive] "zed" 7)[0]?
        = ([rowActive][0]?).map (fun r =>
            if ilike "zed" r.screen_name then clearOnUnsubscribe 7 r else r)
    ∧ unsubscribe [rowActive] "zed" 7 = [rowActive] :=
  ⟨(c5_unsubscribe_updates_matching [rowActive] "zed" 7).1 0,
   (c5_unsubscribe_updates_matching [rowActive] "zed" 7).2 (by decide)⟩

/-- Claim C5 counterexample: the only row is inactive (already unsubscribed at
time 1) and carries the matching name, so by the claim the call should be a
no-op; the implementation instead resets its `unsubscribed_at` to the new
time. -/
theorem c5_inactive_row_counterexample :
    unsubscribe [rowInactive] "Carol" 9
        = [{ rowInactive with unsubscribed_at := some 9 }]
    ∧ unsubscribe [rowInactive] "Carol" 9 ≠ [rowInactive] := by
  refine ⟨by decide, by decide⟩

/-- Claim C6 (amended): `"subscribe kedo48"` parses to a subscribe intent for
`kedo48`; `"subscribe https://twitter.com/kedo48"` parses to a subscribe
intent for `https`, because the first (bare-handle) pattern matches the
scheme prefix `https` (the boundary `\b` holds before `:`) and the pattern
list is tried in order, so the URL pattern never sees the text; a subscribe
command whose handle is 20 alphanumeric characters matches nothing (the
length bound is 15). -/
theorem c6_parse_amended :
    parseMessageText "subscribe kedo48" = some (Intent.subscribeIntent "kedo48")
    ∧ parseMessageText "subscribe https://twitter.com/kedo48"
        = some (Intent.subscribeIntent "https")
    ∧ parseMessageText "subscribe abcdefghij0123456789" = none := by
  refine ⟨by decide, by decide, by decide⟩

/-- Claim C6 counterexample: the URL form does not parse to handle `kedo48`
as the claim states (it parses to `https`). -/
theorem c6_url_counterexample :
    parseMessageText "subscribe https://twitter.com/kedo48"
      ≠ some (Intent.subscribeIntent "kedo48") := by decide

/-- Claim C8 (amended): `get_latest_tweet_id_for_user_id` returns the stored
`latest_tweet_id` when a row exists for the id; when no row exists it fails,
but with the `TypeError` of subscripting `None` (`noneNotSubscriptable`), not
with a typed `NotFound` error. -/
theorem c8_get_cursor (db : List Subscription) (uid : Nat) :
    (∀ r : Subscription, r ∈ db → r.user_id = uid →
        (db.map (fun s => s.user_id)).Nodup →
        get_latest_tweet_id_for_user_id db uid = Except.ok r.latest_tweet_id)
    ∧ ((∀ r ∈ db, r.user_id ≠ uid) →
        get_latest_tweet_id_for_user_id db uid
          = Except.error ManagerError.noneNotSubscriptable) := by
  constructor
  · intro r hmem hid hnd
    have hfind : findSubscription db uid = some r :=
      find_eq_of_mem_nodup r uid hid db hmem hnd
    unfold get_latest_tweet_id_for_user_id
    rw [hfind]
  · intro h
    have hfind : findSubscription db uid = none := by
      unfold findSubscription
      rw [List.find?_eq_none]
      intro x hx
      simp only [Bool.not_eq_true]
      exact beq_eq_false_iff_ne.mpr (h x hx)
    unfold get_latest_tweet_id_for_user_id
    rw [hfind]

/-- Claim C8 witness: the stored cursor is returned for an existing row, and
the missing-row case produces the `TypeError`-style failure. -/
theorem c8_get_cursor_witness :
    get_latest_tweet_id_for_user_id [rowActive] 1 = Except.ok (some 5)
    ∧ get_latest_tweet_id_for_user_id [rowActive] 2
        = Except.error ManagerError.noneNotSubscriptable :=
  ⟨(c8_get_cursor [rowActive] 1).1 rowActive (by decide) (by decide) (by decide),
   (c8_get_cursor [rowActive] 2).2 (by decide)⟩

/-- Claim C8 counterexample: with no row for the id, the call fails with the
`None`-subscript `TypeError`, not with the `NotFound` error the claim
states. -/
theorem c8_notfound_counterexample :
    get_latest_tweet_id_for_user_id [] 1
        = Except.error ManagerError.noneNotSubscriptable
    ∧ get_latest_tweet_id_for_user_id [] 1
        ≠ Except.error ManagerError.notFound := by
  refine ⟨rfl, by decide⟩

/-- Claim C9 (amended): running `update_latest_tweet_id` twice in a row with
the same item id yields the same table as running it once at the second
call's time: `latest_tweet_id` is identical, and the only field the repeat
touches is `refreshed_latest_tweet_id_at`, which records the later call. -/
theorem c9_advance_twice_absorbs (db : List Subscription) (uid : Nat)
    (x : Option Nat) (t1 t2 : Nat) :
    update_latest_tweet_id (update_latest_tweet_id db uid x t1) uid x t2
      = update_latest_tweet_id db uid x t2 := by
  unfold update_latest_tweet_id
  rw [List.map_map]
  have hfg : ((fun r : Subscription =>
        if r.user_id == uid then
          { r with refreshed_latest_tweet_id_at := some t2, latest_tweet_id := x }
        else r)
      ∘ (fun r : Subscription =>
        if r.user_id == uid then
          { r with refreshed_latest_tweet_id_at := some t1, latest_tweet_id := x }
        else r))
      = (fun r : Subscription =>
        if r.user_id == uid then
          { r with refreshed_latest_tweet_id_at := some t2, latest_tweet_id := x }
        else r) := by
    funext r
    by_cases h : (r.user_id == uid) = true
    · simp [Function.comp, h]
    · simp [Function.comp, h]
  rw [hfg]

/-- Claim C9 counterexample: advancing the cursor twice (at times 10 and 11)
leaves a different row state than advancing once (at time 10): the repeat
overwrites `refreshed_latest_tweet_id_at`, so the states are not identical as
the claim requires. -/
theorem c9_timestamp_counterexample :
    update_latest_tweet_id (update_latest_tweet_id [rowActive] 1 (some 7) 10) 1
        (some 7) 11
      ≠ update_latest_tweet_id [rowActive] 1 (some 7) 10 := by decide

/-- Claim C10: a polling cycle whose active-subscription set is empty (an
empty table, or one with only unsubscribed rows) does not complete: the
fan-out/join step, `asyncio.wait` on an empty task set, raises `ValueError`,
so the loop never reaches its between-cycle sleep. -/
theorem c10_empty_cycle_value_error
    (fetch : Nat → Option Nat → Except FetchError Timeline) (now : Nat) :
    twitterCycle fetch now [] = Except.error CycleError.emptyTaskSetValueError
    ∧ twitterCycle fetch now [rowInactive]
        = Except.error CycleError.emptyTaskSetValueError :=
  ⟨rfl, rfl⟩

/-- Claim C1 (amended): for a polling cycle on an account whose prior cursor
is non-null and nonzero (the code tests Python truthiness, so a stored cursor
of 0 is treated like null): every fetched item yields exactly one
notification attempt if it has attached media and none otherwise, and —
under the fetch contract that items arrive newest-first — the cursor stored
afterwards is the maximum fetched item id, or the unchanged prior cursor when
the fetch returned nothing. -/
theorem c1_poll_with_cursor (db : List Subscription) (uid now n : Nat)
    (r : Subscription) (fetch : Nat → Option Nat → Except FetchError Timeline)
    (tl : Timeline)
    (hr : findSubscription db uid = some r)
    (hcur : r.latest_tweet_id = some n)
    (hn : n ≠ 0)
    (hfetch : fetch uid (some n) = Except.ok tl)
    (hdesc : tl.tweets.Pairwise (fun a b => b.id ≤ a.id)) :
    (handlePoll fetch uid now db).2
        = (tl.tweets.filter (fun t => t.has_media)).map notificationText
    ∧ (findSubscription (handlePoll fetch uid now db).1 uid).map
          (fun s => s.latest_tweet_id)
        = some (match tl.tweets with
                | [] => some n
                | _ :: _ => some (maxTweetId tl.tweets)) := by
  have hg : get_latest_tweet_id_for_user_id db uid = Except.ok (some n) := by
    unfold get_latest_tweet_id_for_user_id
    rw [hr]
    show Except.ok r.latest_tweet_id = Except.ok (some n)
    rw [hcur]
  unfold handlePoll
  rw [hg]
  show (handlePollFetched (some n) (fetch uid (some n)) uid now db).2 = _
    ∧ (findSubscription
          (handlePollFetched (some n) (fetch uid (some n)) uid now db).1 uid).map
          (fun s => s.latest_tweet_id) = _
  rw [hfetch]
  constructor
  · show pollNotifications (some n) tl
        = (tl.tweets.filter (fun t => t.has_media)).map notificationText
    unfold pollNotifications pollNewTweets
    have htr : truthyOptNat (some n) = true := by
      unfold truthyOptNat
      exact bne_iff_ne.mpr hn
    rw [htr, if_pos rfl]
  · show (findSubscription
          (update_latest_tweet_id db uid (pollSinceId (some n) tl) now) uid).map
          (fun s => s.latest_tweet_id)
        = some (match tl.tweets with
                | [] => some n
                | _ :: _ => some (maxTweetId tl.tweets))
    rw [findSub_update_self, hr]
    unfold pollSinceId
    cases htl : tl.tweets with
    | nil => rfl
    | cons t ts =>
      have hb := (List.pairwise_cons.mp (htl ▸ hdesc)).1
      show some (some t.id) = some (some (maxTweetId (t :: ts)))
      rw [maxTweetId_cons_of_head_max t ts hb]

/-- Claim C1 witness: with cursor 5 and a newest-first fetch of a media tweet
(id 8) and a plain tweet (id 6), exactly the media tweet is notified and the
cursor becomes the maximum id 8. -/
theorem c1_poll_with_cursor_witness :
    (handlePoll fetchTwo 1 9 [rowActive]).2
        = (timelineTwo.tweets.filter (fun t => t.has_media)).map notificationText
    ∧ (findSubscription (handlePoll fetchTwo 1 9 [rowActive]).1 1).map
          (fun s => s.latest_tweet_id)
        = some (match timelineTwo.tweets with
                | [] => some 5
                | _ :: _ => some (maxTweetId timelineTwo.tweets)) :=
  c1_poll_with_cursor [rowActive] 1 9 5 rowActive fetchTwo timelineTwo rfl rfl
    (by decide) rfl (by decide)

/-- Claim C1 counterexample: the account's stored cursor is `some 0` —
non-null, as the claim's hypothesis requires — and the (newest-first) fetch
returns exactly one item with attached media, yet the cycle emits zero
notification attempts instead of the claimed one, because `if since_id:` in
the code treats the cursor 0 as a first poll. -/
theorem c1_zero_cursor_counterexample :
    rowZeroCursor.latest_tweet_id ≠ none
    ∧ ((Timeline.mk [tweetMedia7]).tweets.filter (fun t => t.has_media)).length = 1
    ∧ List.Pairwise (fun a b : Tweet => b.id ≤ a.id) (Timeline.mk [tweetMedia7]).tweets
    ∧ fetchOneMedia 1 (some 0) = Except.ok (Timeline.mk [tweetMedia7])
    ∧ (handlePoll fetchOneMedia 1 5 [rowZeroCursor]).2 = [] := by
  refine ⟨by decide, by decide, by decide, rfl, by decide⟩

/-- Claim C2: on a first poll (prior cursor NULL) zero notifications are
emitted regardless of the fetch's outcome, and the stored cursor becomes the
maximum fetched id (under the newest-first fetch contract), staying NULL when
nothing was fetched (including when the fetch failed). -/
theorem c2_first_poll_baseline (db : List Subscription) (uid now : Nat)
    (r : Subscription) (fetch : Nat → Option Nat → Except FetchError Timeline)
    (res : Except FetchError Timeline)
    (hr : findSubscription db uid = some r)
    (hnull : r.latest_tweet_id = none)
    (hres : fetch uid none = res)
    (hdesc : ∀ tl, res = Except.ok tl →
        tl.tweets.Pairwise (fun a b => b.id ≤ a.id)) :
    (handlePoll fetch uid now db).2 = []
    ∧ (findSubscription (handlePoll fetch uid now db).1 uid).map
          (fun s => s.latest_tweet_id)
        = some (match res with
                | Except.error _ => none
                | Except.ok tl =>
                  match tl.tweets with
                  | [] => none
                  | _ :: _ => some (maxTweetId tl.tweets)) := by
  have hg : get_latest_tweet_id_for_user_id db uid = Except.ok none := by
    unfold get_latest_tweet_id_for_user_id
    rw [hr]
    show Except.ok r.latest_tweet_id = Except.ok none
    rw [hnull]
  unfold handlePoll
  rw [hg]
  show (handlePollFetched none (fetch uid none) uid now db).2 = _
    ∧ (findSubscription
          (handlePollFetched none (fetch uid none) uid now db).1 uid).map
          (fun s => s.latest_tweet_id) = _
  rw [hres]
  cases res with
  | error e =>
    constructor
    · rfl
    · show (findSubscription db uid).map (fun s => s.latest_tweet_id) = some none
      rw [hr]
      show some r.latest_tweet_id = some none
      rw [hnull]
  | ok tl =>
    constructor
    · rfl
    · show (findSubscription
            (update_latest_tweet_id db uid (pollSinceId none tl) now) uid).map
            (fun s => s.latest_tweet_id)
          = some (match tl.tweets with
                  | [] => none
                  | _ :: _ => some (maxTweetId tl.tweets))
      rw [findSub_update_self, hr]
      unfold pollSinceId
      cases htl : tl.tweets with
      | nil => rfl
      | cons t ts =>
        have hb := (List.pairwise_cons.mp (htl ▸ hdesc tl rfl)).1
        show some (some t.id) = some (some (maxTweetId (t :: ts)))
        rw [maxTweetId_cons_of_head_max t ts hb]

/-- Claim C2 witness: a never-polled account, fetched with a two-tweet
newest-first timeline (one with media), gets zero notifications and cursor 8
(the maximum fetched id). -/
theorem c2_first_poll_baseline_witness :
    (handlePoll fetchTwo 1 9 [rowNeverPolled]).2 = []
    ∧ (findSubscription (handlePoll fetchTwo 1 9 [rowNeverPolled]).1 1).map
          (fun s => s.latest_tweet_id)
        = some (match (Except.ok timelineTwo : Except FetchError Timeline) with
                | Except.error _ => none
                | Except.ok tl =>
                  match tl.tweets with
                  | [] => none
                  | _ :: _ => some (maxTweetId tl.tweets)) :=
  c2_first_poll_baseline [rowNeverPolled] 1 9 rowNeverPolled fetchTwo
    (Except.ok timelineTwo) rfl rfl rfl
    (fun tl htl => by
      injection htl with h2
      subst h2
      decide)

/-- Claim C3: unsubscribing a row by its own display name and then
re-subscribing the same account id leaves the row active with a NULL cursor
(and NULL refresh timestamp): the clear performed by the unsubscribe is not
undone by the re-subscribe, which only restores the name, the subscription
time and the active state. -/
theorem c3_unsubscribe_resubscribe_fresh (db : List Subscription)
    (uid t1 t2 : Nat) (name2 : String) (r : Subscription)
    (hr : findSubscription db uid = some r) :
    findSubscription (subscribe (unsubscribe db r.screen_name t1) uid name2 t2) uid
      = some { r with screen_name := name2, subscribed_at := t2,
                      unsubscribed_at := none, latest_tweet_id := none,
                      refreshed_latest_tweet_id_at := none } := by
  have hr2 : List.find? (fun x => x.user_id == uid) db = some r := hr
  have hp := List.find?_some hr2
  simp only at hp
  have h1 : findSubscription (unsubscribe db r.screen_name t1) uid
      = some (clearOnUnsubscribe t1 r) := by
    unfold unsubscribe
    rw [findSub_map _ (fun s => by
      by_cases h : ilike r.screen_name s.screen_name = true <;>
        simp [h, clearOnUnsubscribe])]
    rw [hr]
    simp [ilike_self]
  unfold subscribe
  rw [h1]
  show findSubscription
      ((unsubscribe db r.screen_name t1).map (fun s =>
        if s.user_id == uid then
          { s with screen_name := name2, subscribed_at := t2, unsubscribed_at := none }
        else s)) uid
    = some { r with screen_name := name2, subscribed_at := t2,
                    unsubscribed_at := none, latest_tweet_id := none,
                    refreshed_latest_tweet_id_at := none }
  rw [findSub_map _ (fun s => by
    by_cases h : (s.user_id == uid) = true <;> simp [h])]
  rw [h1]
  simp [clearOnUnsubscribe, beq_iff_eq.mp hp]

/-- Claim C3 witness: account 1 (name "alice", cursor 5) unsubscribed and
re-subscribed as "alicia" ends active with a NULL cursor. -/
theorem c3_unsubscribe_resubscribe_fresh_witness :
    findSubscription
        (subscribe (unsubscribe [rowActive] rowActive.screen_name 6) 1 "alicia" 7) 1
      = some { rowActive with screen_name := "alicia", subscribed_at := 7,
                              unsubscribed_at := none, latest_tweet_id := none,
                              refreshed_latest_tweet_id_at := none } :=
  c3_unsubscribe_resubscribe_fresh [rowActive] 1 6 7 "alicia" rowActive rfl

/-- Claim C7: when the fetch for one listed account always fails, the cycle
still completes (`asyncio.wait` collects the failure inside that task): the
failing account's row — in particular its cursor — is unchanged, every other
listed account's row ends exactly as its own polling task leaves it under any
fetch behaviour agreeing outside the failing account, and the cycle's
notifications are the concatenation of the other accounts' own notifications
(the failing account contributes none). -/
theorem c7_failure_isolation (db : List Subscription) (now uid : Nat)
    (fetch fetchB : Nat → Option Nat → Except FetchError Timeline)
    (hnd : (db.map (fun s => s.user_id)).Nodup)
    (hact : uid ∈ list_user_ids_of_active_subscriptions db)
    (hfail : ∀ s, fetch uid s = Except.error FetchError.apiFailure)
    (hagree : ∀ v, v ≠ uid → fetchB v = fetch v) :
    ∃ final notifs,
      twitterCycle fetch now db = Except.ok (final, notifs)
      ∧ findSubscription final uid = findSubscription db uid
      ∧ (∀ v, v ≠ uid →
          findSubscription final v
            = if v ∈ list_user_ids_of_active_subscriptions db
              then findSubscription (handlePoll fetchB v now db).1 v
              else findSubscription db v)
      ∧ notifs = concatMap
          (fun v => if v = uid then [] else (handlePoll fetchB v now db).2)
          (list_user_ids_of_active_subscriptions db) := by
  have hndu : (list_user_ids_of_active_subscriptions db).Nodup := by
    have hsub : (list_user_ids_of_active_subscriptions db).Sublist
        (db.map (fun s => s.user_id)) :=
      List.Sublist.map _ (List.filter_sublist db)
    exact List.Nodup.sublist hsub hnd
  have hne : (list_user_ids_of_active_subscriptions db).isEmpty = false := by
    cases hcase : list_user_ids_of_active_subscriptions db with
    | nil =>
      rw [hcase] at hact
      exact absurd hact (List.not_mem_nil uid)
    | cons a l => rfl
  obtain ⟨hnotifs, hrows⟩ :=
    runCycleTasks_spec fetch now (list_user_ids_of_active_subscriptions db) db [] hndu
  refine ⟨(runCycleTasks fetch now (list_user_ids_of_active_subscriptions db) (db, [])).1,
          (runCycleTasks fetch now (list_user_ids_of_active_subscriptions db) (db, [])).2,
          ?_, ?_, ?_, ?_⟩
  · simp only [twitterCycle, hne, Bool.false_eq_true, if_false]
  · have hthis := hrows uid
    rw [if_pos hact, handlePoll_fetch_fails fetch uid now db hfail] at hthis
    exact hthis
  · intro v hv
    have hthis := hrows v
    rw [handlePoll_fetch_congr fetch fetchB v now db ((hagree v hv).symm)] at hthis
    exact hthis
  · have hcg : concatMap (fun v => (handlePoll fetch v now db).2)
          (list_user_ids_of_active_subscriptions db)
        = concatMap (fun v => if v = uid then [] else (handlePoll fetchB v now db).2)
          (list_user_ids_of_active_subscriptions db) := by
      apply concatMap_congr
      intro v hv
      by_cases hvu : v = uid
      · subst hvu
        rw [if_pos rfl, handlePoll_fetch_fails fetch v now db hfail]
      · rw [if_neg hvu,
            handlePoll_fetch_congr fetch fetchB v now db ((hagree v hvu).symm)]
    rw [hnotifs, List.nil_append]
    exact hcg

/-- Claim C7 witness: two active accounts (ids 1 and 2); account 1's fetch
always fails while account 2's succeeds; the cycle completes, account 1's row
is untouched and account 2 is handled exactly as its own task would. -/
theorem c7_failure_isolation_witness :
    ∃ final notifs,
      twitterCycle fetchFailOn1 9 [rowActive, rowActive2] = Except.ok (final, notifs)
      ∧ findSubscription final 1 = findSubscription [rowActive, rowActive2] 1
      ∧ (∀ v, v ≠ 1 →
          findSubscription final v
            = if v ∈ list_user_ids_of_active_subscriptions [rowActive, rowActive2]
              then findSubscription
                  (handlePoll fetchOkOn1 v 9 [rowActive, rowActive2]).1 v
              else findSubscription [rowActive, rowActive2] v)
      ∧ notifs = concatMap
          (fun v => if v = 1 then []
                    else (handlePoll fetchOkOn1 v 9 [rowActive, rowActive2]).2)
          (list_user_ids_of_active_subscriptions [rowActive, rowActive2]) :=
  c7_failure_isolation [rowActive, rowActive2] 9 1 fetchFailOn1 fetchOkOn1
    (by decide) (by decide) (fun s => rfl)
    (fun v hv => by
      funext s
      simp [fetchOkOn1, hv])

end Tothc
